import Mathlib

/-!
Verification development for the steering-document synthesis engine
(`steering_generator/generator.py`).

The Python module is shallowly embedded below.  Python strings become
`String`, dicts become association lists (`List (String × _)`), optional
dict entries become `Option`, and `"\n".join(...)` becomes `joinSep "\n"`.
String primitives (`lower`, `upper`, substring `in`, `split("/")[-1]`,
slicing) are re-implemented on `List Char` so that every definition is
kernel-computable.

Two embeddings of the content derivers are given:
* a typed one over `AnalysisRecord`, the data-model shape in which every
  dependency descriptor carries a name and every status enum carries a
  name and a value list (the shape assumed by the claims about content);
* a "raw" one over `RawRecord` in `Except Unit`, in which exactly the
  dictionary accesses written with brackets in the Python (`d["name"]`,
  `enum['name']`, `enum["values"]`) can fail, used to settle the
  no-raise claim.
-/

set_option maxRecDepth 8192

/-! ## String helpers -/

/-- Lower-casing, as Python `str.lower` on ASCII names (char-wise). -/
def strLower (s : String) : String := String.mk (s.data.map Char.toLower)

/-- Upper-casing, as Python `str.upper` on ASCII names (char-wise). -/
def strUpper (s : String) : String := String.mk (s.data.map Char.toUpper)

/-- Membership of `pat` as a contiguous substring, as Python `pat in s`. -/
def infOf (pat : List Char) : List Char → Bool
  | [] => pat.isEmpty
  | c :: rest => pat.isPrefixOf (c :: rest) || infOf pat rest

/-- Python `pat in s` on strings. -/
def strHasSub (s pat : String) : Bool := infOf pat.data s.data

/-- Python `s.split("/")[-1]`: the segment after the last slash. -/
def lastSlashSeg (s : String) : String :=
  String.mk ((s.data.reverse.takeWhile (fun c => c ≠ '/')).reverse)

/-- Python `s.split("\n")[0][:30]`: first line, truncated to 30 chars. -/
def truncTy (s : String) : String :=
  String.mk ((s.data.takeWhile (fun c => c ≠ '\n')).take 30)

/-- Python `sep.join(xs)`. -/
def joinSep (sep : String) : List String → String
  | [] => ""
  | [a] => a
  | a :: b :: rest => a ++ sep ++ joinSep sep (b :: rest)

/-- Python `dict.get` over an association list (first matching key). -/
def lookupStr {α : Type} : List (String × α) → String → Option α
  | [], _ => none
  | p :: rest, k => if k = p.1 then some p.2 else lookupStr rest k

/-! ## Data model (§3 of the module's data shape)

`AnalysisRecord` is the input record consumed by the derivers; every
top-level field may be absent.  A dependency descriptor has a required
name and an optional free-text purpose; a status enum has a name and a
value list. -/

/-- A dependency descriptor `{name, purpose?}`. -/
structure Dep where
  name : String
  purpose : Option String := none
deriving DecidableEq, Repr

/-- The `architecturePatterns` mapping (four fixed keys, each optional). -/
structure Patterns where
  stateManagement : Option String := none
  componentPattern : Option String := none
  apiPattern : Option String := none
  styling : Option String := none
deriving DecidableEq, Repr

/-- The parsed-README record `{title?, description?, features?}`. -/
structure Readme where
  title : Option String := none
  description : Option String := none
  features : Option (List String) := none
deriving DecidableEq, Repr

/-- A domain-entity field `{name, type, optional?}`. -/
structure EntityField where
  name : String
  type : String
  optional : Bool := false
deriving DecidableEq, Repr

/-- A domain-entity descriptor `{name, description?, fields?}`. -/
structure Entity where
  name : String
  description : Option String := none
  fields : Option (List EntityField) := none
deriving DecidableEq, Repr

/-- A status enumeration `{name, values}`. -/
structure StatusEnum where
  name : String
  values : List String
deriving DecidableEq, Repr

/-- The analysis record: the single input of the synthesis engine.
All fields are optional; sequences and mappings default to empty.
The legacy `categorizedDeps` alias read at generator.py:83 is not part
of the analysis-record shape, so the `or`-fallback there collapses to
`Option.getD []`. -/
structure AnalysisRecord where
  framework : Option String := none
  categorizedDependencies : Option (List (String × List Dep)) := none
  architecturePatterns : Patterns := {}
  scripts : List String := []
  envVars : List String := []
  readme : Readme := {}
  entities : List Entity := []
  statusEnums : List StatusEnum := []
deriving DecidableEq, Repr

/-- `categorized.get(key)` with falsy default: absent category ⇒ `[]`. -/
def getCat (cc : List (String × List Dep)) (k : String) : List Dep :=
  (lookupStr cc k).getD []

/-! ## Static tables (generator.py:21-73) -/

/-- `FRAMEWORK_NAMES` (generator.py:66-73). -/
def FRAMEWORK_NAMES : List (String × String) :=
  [("nextjs", "Next.js 15 (App Router)"),
   ("nextjs-pages", "Next.js 15 (Pages Router)"),
   ("laravel", "Laravel 12"),
   ("react", "React 19 (Vite)"),
   ("vue", "Vue.js 3 (Vite)"),
   ("nuxt", "Nuxt 3")]

/-- One `IDE_CONFIGS` entry (generator.py:21-64). -/
structure IdeConfig where
  path : String
  filename : Option String := none
  multiple_files : Bool
  description : String
  files : Option (List String) := none
deriving DecidableEq, Repr

/-- The `"markdown"` entry of `IDE_CONFIGS` (the fallback config). -/
def markdownConfig : IdeConfig :=
  { path := "", filename := some "STEERING.md", multiple_files := false,
    description := "Generic markdown - Single STEERING.md file" }

/-- `IDE_CONFIGS` (generator.py:21-64). -/
def IDE_CONFIGS : List (String × IdeConfig) :=
  [("kiro",
    { path := ".kiro/steering/", multiple_files := true,
      description := "Kiro IDE - Multiple .md files in .kiro/steering/",
      files := some ["product.md", "tech.md", "structure.md"] }),
   ("cursor",
    { path := ".cursor/rules/", filename := some "project.mdc", multiple_files := false,
      description := "Cursor IDE - .cursor/rules/*.mdc" }),
   ("copilot",
    { path := ".github/", filename := some "copilot-instructions.md", multiple_files := false,
      description := "GitHub Copilot - .github/copilot-instructions.md" }),
   ("windsurf",
    { path := "", filename := some ".windsurfrules", multiple_files := false,
      description := "Windsurf/Codeium - .windsurfrules in root" }),
   ("cline",
    { path := "", filename := some ".clinerules", multiple_files := false,
      description := "Cline - .clinerules in root" }),
   ("aider",
    { path := "", filename := some "CONVENTIONS.md", multiple_files := false,
      description := "Aider - CONVENTIONS.md" }),
   ("markdown", markdownConfig)]

/-! ## tech.md deriver (generator.py:76-252) -/

/-- Fixed document intro (generator.py:88-90). -/
def introLines : List String :=
  ["# Technology Stack\n",
   "This document defines the technology choices for this project. ",
   "Use these technologies when generating code and suggestions.\n"]

/-- Framework & Runtime section (generator.py:93-106). -/
def frameworkLines (fw : String) : List String :=
  ["## Framework & Runtime\n",
   "- **Framework**: " ++ (lookupStr FRAMEWORK_NAMES fw).getD fw] ++
  (if ["nextjs", "nextjs-pages", "react"].contains fw then
     ["- **UI Library**: React 19",
      "- **Language**: TypeScript 5",
      "- **Runtime**: Node.js 20+"]
   else if ["vue", "nuxt"].contains fw then
     ["- **UI Library**: Vue 3 (Composition API)",
      "- **Language**: TypeScript 5",
      "- **Runtime**: Node.js 20+"]
   else if fw = "laravel" then
     ["- **Language**: PHP 8.2+",
      "- **Runtime**: PHP-FPM / Laravel Octane"]
   else []) ++
  [""]

/-- Lines contributed by one Database-category dependency (generator.py:112-123);
note `dep.get("purpose", "")` / `dep.get("name", "")` are falsy-defaulted gets. -/
def dbDepLines (d : Dep) : List String :=
  let purpose := d.purpose.getD ""
  if strHasSub (strLower d.name) "supabase" then
    ["- **Database**: Supabase (PostgreSQL)",
     "- **Auth**: Supabase Auth",
     "- **Storage**: Supabase Storage"]
  else if strHasSub (strLower d.name) "prisma" then ["- **ORM**: Prisma"]
  else if strHasSub (strLower d.name) "drizzle" then ["- **ORM**: Drizzle ORM"]
  else if purpose ≠ "" then ["- " ++ purpose]
  else []

/-- Database & Backend section (generator.py:109-124). -/
def databaseLines (deps : List Dep) : List String :=
  if deps = [] then []
  else "## Database & Backend\n" :: deps.flatMap dbDepLines ++ [""]

/-- Python `any("tailwind" in d["name"].lower() for d in ui)` (generator.py:130). -/
def hasTailwind (ui : List Dep) : Bool :=
  ui.any (fun d => strHasSub (strLower d.name) "tailwind")

/-- Python `sum(1 for d in ui if "@radix-ui" in d["name"])` (generator.py:131). -/
def radixCount (ui : List Dep) : Nat :=
  ui.countP (fun d => strHasSub d.name "@radix-ui")

/-- UI & Styling section (generator.py:127-152); `other` is the
"Other" category scanned for the Geist font inside this section. -/
def uiStylingLines (ui other : List Dep) : List String :=
  if ui = [] then []
  else
    "## UI & Styling\n" ::
    (if hasTailwind ui then ["- **CSS Framework**: Tailwind CSS (utility-first)"] else []) ++
    (if 5 < radixCount ui ∧ hasTailwind ui = true then
       ["- **Component Library**: shadcn/ui (built on Radix UI)"]
     else if 0 < radixCount ui then ["- **UI Primitives**: Radix UI"]
     else []) ++
    ui.filterMap (fun d =>
      if d.name = "lucide-react" then some "- **Icons**: Lucide React"
      else if d.name = "@heroicons/react" then some "- **Icons**: Heroicons"
      else none) ++
    (if other ≠ [] then
       other.filterMap (fun d =>
         if d.name = "geist" then some "- **Font**: Geist font family" else none)
     else []) ++
    [""]

/-- Forms-category contribution to `key_libs` (generator.py:157-163). -/
def formsLib (d : Dep) : Option String :=
  if lastSlashSeg d.name = "zod" then some "**Validation**: Zod (schema validation)"
  else if strHasSub d.name "react-hook-form" then some "**Forms**: React Hook Form"
  else none

/-- State-category contribution (generator.py:165-173). -/
def stateLib (d : Dep) : Option String :=
  if d.name = "zustand" then some "**State Management**: Zustand"
  else if d.name = "jotai" then some "**State Management**: Jotai (atomic)"
  else if strHasSub d.name "@reduxjs/toolkit" then some "**State Management**: Redux Toolkit"
  else none

/-- Data-Fetching-category contribution (generator.py:175-181). -/
def fetchLib (d : Dep) : Option String :=
  if strHasSub d.name "@tanstack/react-query" then some "**Data Fetching**: TanStack Query"
  else if d.name = "swr" then some "**Data Fetching**: SWR"
  else none

/-- Utilities-category contribution (generator.py:183-189). -/
def utilLib (d : Dep) : Option String :=
  if d.name = "date-fns" then some "**Date Utilities**: date-fns"
  else if d.name = "dayjs" then some "**Date Utilities**: Day.js"
  else none

/-- Charts-category contribution (generator.py:191-193). -/
def chartLib (d : Dep) : Option String :=
  some ("**Charts**: " ++ d.name)

/-- Notifications-category contribution (generator.py:195-200). -/
def notifLib (d : Dep) : Option String :=
  if d.name = "sonner" then some "**Notifications**: Sonner (toast)"
  else some ("**Notifications**: " ++ d.name)

/-- Theme-category contribution (generator.py:202-205). -/
def themeLib (d : Dep) : Option String :=
  if d.name = "next-themes" then some "**Theming**: next-themes"
  else none

/-- The `key_libs` list assembled over the six category scans
(generator.py:155-205); each scan is guarded by category truthiness. -/
def keyLibs (cc : List (String × List Dep)) : List String :=
  (if getCat cc "Forms" ≠ [] then (getCat cc "Forms").filterMap formsLib else []) ++
  (if getCat cc "State" ≠ [] then (getCat cc "State").filterMap stateLib else []) ++
  (if getCat cc "Data Fetching" ≠ [] then (getCat cc "Data Fetching").filterMap fetchLib else []) ++
  (if getCat cc "Utilities" ≠ [] then (getCat cc "Utilities").filterMap utilLib else []) ++
  (if getCat cc "Charts" ≠ [] then (getCat cc "Charts").filterMap chartLib else []) ++
  (if getCat cc "Notifications" ≠ [] then (getCat cc "Notifications").filterMap notifLib else []) ++
  (if getCat cc "Theme" ≠ [] then (getCat cc "Theme").filterMap themeLib else [])

/-- Key Libraries section (generator.py:207-211). -/
def keyLibsLines (cc : List (String × List Dep)) : List String :=
  if keyLibs cc = [] then []
  else "## Key Libraries\n" :: (keyLibs cc).map (fun l => "- " ++ l) ++ [""]

/-- Development Commands section (generator.py:214-227);
`scripts` is the key set of the scripts mapping (only presence is used). -/
def scriptsLines (s : List String) : List String :=
  if s = [] then []
  else
    ["## Development Commands\n", "```bash"] ++
    (if s.contains "dev" then ["npm run dev       # Start development server"] else []) ++
    (if s.contains "build" then ["npm run build     # Build for production"] else []) ++
    (if s.contains "start" then ["npm run start     # Start production server"] else []) ++
    (if s.contains "lint" then ["npm run lint      # Run linter"] else []) ++
    (if s.contains "test" then ["npm run test      # Run tests"] else []) ++
    ["```\n"]

/-- The exact-match table of `_get_env_var_description` (generator.py:257-267). -/
def envDescTable : List (String × String) :=
  [("DATABASE_URL", "Database connection string"),
   ("NEXT_PUBLIC_SUPABASE_URL", "Supabase project URL"),
   ("NEXT_PUBLIC_SUPABASE_ANON_KEY", "Supabase anonymous key (public)"),
   ("SUPABASE_SERVICE_ROLE_KEY", "Supabase service role key (server-only)"),
   ("NEXTAUTH_SECRET", "NextAuth.js secret"),
   ("NEXTAUTH_URL", "NextAuth.js URL"),
   ("OPENAI_API_KEY", "OpenAI API key"),
   ("STRIPE_SECRET_KEY", "Stripe secret key"),
   ("STRIPE_PUBLISHABLE_KEY", "Stripe publishable key")]

/-- `_get_env_var_description` (generator.py:255-290): exact table first,
then case-insensitive substring rules in fixed order, then `"Required"`. -/
def get_env_var_description (v : String) : String :=
  match lookupStr envDescTable v with
  | some d => d
  | none =>
    let u := strUpper v
    if strHasSub u "SUPABASE" && strHasSub u "URL" then "Supabase project URL"
    else if strHasSub u "SUPABASE" && strHasSub u "ANON" then "Supabase anonymous key"
    else if strHasSub u "SUPABASE" && strHasSub u "SERVICE" then "Supabase service role key"
    else if strHasSub u "DATABASE" || strHasSub u "DB_" then "Database connection"
    else if strHasSub u "API_KEY" || strHasSub u "APIKEY" then "API key"
    else if strHasSub u "SECRET" then "Secret key"
    else if strHasSub u "URL" then "Service URL"
    else "Required"

/-- Environment Variables section (generator.py:230-238). -/
def envLines (env : List String) : List String :=
  if env = [] then []
  else
    ["## Environment Variables\n",
     "Required environment variables (`.env.local`):\n",
     "| Variable | Description |",
     "|----------|-------------|"] ++
    env.map (fun v => "| `" ++ v ++ "` | " ++ get_env_var_description v ++ " |") ++
    [""]

/-- Technical Constraints section (generator.py:241-250).  `hasT` is the
`has_tailwind` local threaded from the UI section: `none` when the UI &
Styling block did not run (the `'has_tailwind' in dir()` guard at line
247 then yields `False`). -/
def constraintsLines (fw : String) (hasT : Option Bool) : List String :=
  ["## Technical Constraints\n",
   "When generating code, follow these constraints:\n"] ++
  (if ["nextjs", "nextjs-pages"].contains fw then
     ["- Use Server Components by default, Client Components only when needed",
      "- Prefer Server Actions for mutations",
      "- Use `next/image` for images, `next/link` for navigation"]
   else []) ++
  (if hasT.getD false then ["- Use Tailwind CSS classes, avoid inline styles"] else []) ++
  ["- Follow TypeScript strict mode", ""]

/-- The full `lines` list of `generate_tech_md` (generator.py:76-250). -/
def techMdLines (r : AnalysisRecord) : List String :=
  let fw := r.framework.getD "unknown"
  let cc := r.categorizedDependencies.getD []
  let ui := getCat cc "UI & Styling"
  introLines ++
  frameworkLines fw ++
  databaseLines (getCat cc "Database") ++
  uiStylingLines ui (getCat cc "Other") ++
  keyLibsLines cc ++
  scriptsLines r.scripts ++
  envLines r.envVars ++
  constraintsLines fw (if ui = [] then none else some (hasTailwind ui))

/-- `generate_tech_md` (generator.py:76-252). -/
def generate_tech_md (r : AnalysisRecord) : String :=
  joinSep "\n" (techMdLines r)

/-! ## structure.md deriver (generator.py:293-404) -/

/-- The framework-keyed directory-tree table (generator.py:302-375). -/
def structuresTable : List (String × String) :=
  [("nextjs", "```\n├── app/                    # Next.js App Router\n│   ├── api/               # API routes (Route Handlers)\n│   ├── layout.tsx         # Root layout with providers\n│   ├── page.tsx           # Main entry point\n│   └── globals.css        # Global styles & Tailwind\n│\n├── components/            # React components\n│   ├── ui/               # shadcn/ui primitives\n│   └── *.tsx             # Feature components\n│\n├── hooks/                 # Custom React hooks\n│\n├── lib/                   # Utilities and core logic\n│   ├── types.ts          # TypeScript interfaces\n│   └── utils.ts          # Utility functions\n│\n└── public/               # Static assets\n```"),
   ("laravel", "```\n├── app/\n│   ├── Http/\n│   │   ├── Controllers/   # Request handlers\n│   │   └── Middleware/    # HTTP middleware\n│   └── Models/            # Eloquent models\n│\n├── config/                # Configuration files\n│\n├── database/\n│   └── migrations/        # Database migrations\n│\n├── resources/views/       # Blade templates\n│\n├── routes/\n│   ├── web.php           # Web routes\n│   └── api.php           # API routes\n│\n└── public/               # Public assets\n```"),
   ("react", "```\n├── src/\n│   ├── components/        # React components\n│   ├── hooks/            # Custom hooks\n│   ├── store/            # State management\n│   ├── api/              # API services\n│   ├── types/            # TypeScript types\n│   └── App.tsx           # Root component\n│\n├── public/               # Static assets\n└── vite.config.ts        # Vite configuration\n```"),
   ("vue", "```\n├── src/\n│   ├── components/        # Vue components\n│   ├── composables/      # Composition API hooks\n│   ├── stores/           # Pinia stores\n│   ├── router/           # Vue Router config\n│   ├── types/            # TypeScript types\n│   └── App.vue           # Root component\n│\n├── public/               # Static assets\n└── vite.config.ts        # Vite configuration\n```"),
   ("nuxt", "```\n├── pages/                 # File-based routing\n├── components/            # Auto-imported components\n├── composables/          # Auto-imported composables\n├── server/\n│   └── api/              # Server API routes\n├── public/               # Static assets\n└── nuxt.config.ts        # Nuxt configuration\n```")]

/-- Python truthiness of an optional string dict entry (absent or `""` is falsy). -/
def optTruthy (o : Option String) : Bool :=
  !((o.getD "") == "")

/-- Python `any(patterns.values())` over the four pattern keys. -/
def anyPatterns (p : Patterns) : Bool :=
  optTruthy p.stateManagement || optTruthy p.componentPattern ||
  optTruthy p.apiPattern || optTruthy p.styling

/-- The `lines` list of `generate_structure_md`, over the two fields it
reads (generator.py:293-404). -/
def structureMdLinesCore (fw : String) (p : Patterns) : List String :=
  ["# Project Structure\n",
   (lookupStr structuresTable fw).getD "```\n# Project structure\n```",
   ""] ++
  (if anyPatterns p then
     ["\n## Architecture Patterns\n"] ++
     (if optTruthy p.stateManagement then
        ["### State Management", "- " ++ p.stateManagement.getD "", ""] else []) ++
     (if optTruthy p.componentPattern then
        ["### Component Patterns", "- " ++ p.componentPattern.getD "", ""] else []) ++
     (if optTruthy p.apiPattern then
        ["### API Pattern", "- " ++ p.apiPattern.getD "", ""] else []) ++
     (if optTruthy p.styling then
        ["### Styling", "- " ++ p.styling.getD "", ""] else [])
   else [])

/-- `generate_structure_md` (generator.py:293-404). -/
def generate_structure_md (r : AnalysisRecord) : String :=
  joinSep "\n" (structureMdLinesCore (r.framework.getD "unknown") r.architecturePatterns)

/-! ## product.md deriver (generator.py:407-441) -/

/-- The Core-Entities bullet for one entity (generator.py:431-438). -/
def entityLine (e : Entity) : Option String :=
  if e.name = "" then none
  else if e.description.getD "" = "" then some ("- **" ++ e.name ++ "**")
  else some ("- **" ++ e.name ++ "**: " ++ e.description.getD "")

/-- The `lines` list of `generate_product_md`, over the two fields it
reads (generator.py:407-441).  The title line is emitted only when the
title is present, truthy (non-empty) and its lowercase form does not
contain `"deploy"` (line 415). -/
def productMdLinesCore (rm : Readme) (ents : List Entity) : List String :=
  ["# Product Overview\n"] ++
  (match rm.title with
   | some t =>
       if t = "" then []
       else if strHasSub (strLower t) "deploy" then []
       else [t ++ "\n"]
   | none => []) ++
  (match rm.description with
   | some d => if d = "" then [] else [d, ""]
   | none => []) ++
  (match rm.features with
   | some fs =>
       if fs = [] then []
       else "## Features\n" :: fs.map (fun f => "- " ++ f) ++ [""]
   | none => []) ++
  (if ents = [] then []
   else "## Core Entities\n" :: (ents.take 6).filterMap entityLine ++ [""])

/-- The `lines` list of `generate_product_md` on an analysis record. -/
def productMdLines (r : AnalysisRecord) : List String :=
  productMdLinesCore r.readme r.entities

/-- `generate_product_md` (generator.py:407-441). -/
def generate_product_md (r : AnalysisRecord) : String :=
  joinSep "\n" (productMdLines r)

/-! ## business-rules.md deriver (generator.py:444-478) -/

/-- One status-enum subsection (generator.py:454-458). -/
def enumBlock (e : StatusEnum) : List String :=
  ("### " ++ e.name) :: e.values.map (fun v => "- `" ++ v ++ "`") ++ [""]

/-- Status Values section (generator.py:452-458). -/
def statusValuesLines (es : List StatusEnum) : List String :=
  if es = [] then [] else "## Status Values\n" :: es.flatMap enumBlock

/-- One field row of an entity table (generator.py:471-475). -/
def fieldRow (f : EntityField) : String :=
  "| " ++ f.name ++ " | `" ++ truncTy f.type ++ "` | " ++
  (if f.optional then "No" else "Yes") ++ " |"

/-- One entity subsection (generator.py:463-476): rendered only when the
entity has a truthy name and a truthy (non-empty) field list. -/
def entityBlock (e : Entity) : List String :=
  let fields := e.fields.getD []
  if e.name ≠ "" ∧ fields ≠ [] then
    ("### " ++ e.name ++ "\n") ::
    "| Field | Type | Required |" ::
    "|-------|------|----------|" ::
    (fields.take 10).map fieldRow ++ [""]
  else []

/-- Data Entities section (generator.py:461-476). -/
def dataEntityLines (ents : List Entity) : List String :=
  if ents = [] then []
  else "## Data Entities\n" :: (ents.take 5).flatMap entityBlock

/-- The `lines` list of `generate_business_rules_md` (generator.py:444-478). -/
def bizMdLines (r : AnalysisRecord) : List String :=
  "# Business Rules\n" :: statusValuesLines r.statusEnums ++ dataEntityLines r.entities

/-- `generate_business_rules_md` (generator.py:444-478). -/
def generate_business_rules_md (r : AnalysisRecord) : String :=
  joinSep "\n" (bizMdLines r)

/-! ## Format adapter (generator.py:481-534) -/

/-- `_wrap_kiro_format` (generator.py:481-486). -/
def wrap_kiro_format (content : String) : String :=
  "---\ninclusion: always\n---\n" ++ content

/-- `_wrap_cursor_format` (generator.py:489-495). -/
def wrap_cursor_format (content description : String) : String :=
  "---\ndescription: " ++ description ++ "\nalwaysApply: true\n---\n" ++ content

/-- The ordered document set built at generator.py:507-512. -/
def docsList (r : AnalysisRecord) : List (String × String) :=
  [("tech.md", generate_tech_md r),
   ("structure.md", generate_structure_md r),
   ("product.md", generate_product_md r),
   ("business-rules.md", generate_business_rules_md r)]

/-- `generate_steering_docs_deep` (generator.py:498-534).  The config is
looked up with fallback to the `"markdown"` entry; the kiro branch wraps
each document, every other branch joins the four bodies with the
horizontal-rule separator, wrapping only for `"cursor"`.  In the cursor
branch the config is the cursor entry, whose filename is present, so the
bracket access `config['filename']` is modelled by `Option.getD ""`. -/
def generate_steering_docs_deep (r : AnalysisRecord) (fmt : String) : List (String × String) :=
  let fw := r.framework.getD "unknown"
  let docs := docsList r
  let config := (lookupStr IDE_CONFIGS fmt).getD markdownConfig
  if fmt = "kiro" then
    docs.map (fun nc => (config.path ++ nc.1, wrap_kiro_format nc.2))
  else
    let combined := joinSep "\n\n---\n\n" (docs.map (fun nc => nc.2))
    if fmt = "cursor" then
      [(config.path ++ config.filename.getD "",
        wrap_cursor_format combined
          ("Steering rules for " ++ (lookupStr FRAMEWORK_NAMES fw).getD fw ++ " project"))]
    else
      [(config.path ++ config.filename.getD "STEERING.md", combined)]

/-! ## Raw embedding (failure behaviour of the derivers)

`RawRecord` keeps the dependency-name and status-enum fields as raw
optional dict entries, and the derivers are re-read in `Except Unit`:
an access written with brackets in the Python (`d["name"]` in the UI &
Styling / Key-Libraries scans, `enum['name']` / `enum["values"]`)
raises when the key is missing, while `dict.get` accesses never do.
This embedding settles the claim that conforming records never make a
deriver raise. -/

/-- A raw dependency dict: both keys may be missing. -/
structure RawDep where
  name : Option String := none
  purpose : Option String := none
deriving DecidableEq, Repr

/-- A raw status-enum dict: both keys may be missing. -/
structure RawEnum where
  name : Option String := none
  values : Option (List String) := none
deriving DecidableEq, Repr

/-- The raw analysis record consumed by the derivers. -/
structure RawRecord where
  framework : Option String := none
  categorizedDependencies : Option (List (String × List RawDep)) := none
  architecturePatterns : Patterns := {}
  scripts : List String := []
  envVars : List String := []
  readme : Readme := {}
  entities : List Entity := []
  statusEnums : List RawEnum := []
deriving DecidableEq, Repr

/-- Raw category lookup with falsy default. -/
def getRCat (cc : List (String × List RawDep)) (k : String) : List RawDep :=
  (lookupStr cc k).getD []

/-- Python `d["name"]`: raises `KeyError` when the key is missing. -/
def rnm (d : RawDep) : Except Unit String :=
  match d.name with
  | some n => Except.ok n
  | none => Except.error ()

/-- A Python `for dep in deps:` loop appending `f dep["name"]` lines. -/
def depLoop (f : String → List String) : List RawDep → Except Unit (List String)
  | [] => Except.ok []
  | d :: rest => do
    let n ← rnm d
    let tl ← depLoop f rest
    Except.ok (f n ++ tl)

/-- Python `any("tailwind" in d["name"].lower() for d in ui)` with the
generator's lazy short-circuit (generator.py:130). -/
def rawAnyTailwind : List RawDep → Except Unit Bool
  | [] => Except.ok false
  | d :: rest => do
    let n ← rnm d
    if strHasSub (strLower n) "tailwind" then Except.ok true
    else rawAnyTailwind rest

/-- Python `sum(1 for d in ui if "@radix-ui" in d["name"])` (generator.py:131). -/
def rawCountRadix : List RawDep → Except Unit Nat
  | [] => Except.ok 0
  | d :: rest => do
    let n ← rnm d
    let c ← rawCountRadix rest
    Except.ok (c + (if strHasSub n "@radix-ui" then 1 else 0))

/-- Raw Database-section lines: both accesses are `dict.get` with a
falsy default (generator.py:112-113), so this section never raises. -/
def rawDbDepLines (d : RawDep) : List String :=
  let purpose := d.purpose.getD ""
  let name := d.name.getD ""
  if strHasSub (strLower name) "supabase" then
    ["- **Database**: Supabase (PostgreSQL)",
     "- **Auth**: Supabase Auth",
     "- **Storage**: Supabase Storage"]
  else if strHasSub (strLower name) "prisma" then ["- **ORM**: Prisma"]
  else if strHasSub (strLower name) "drizzle" then ["- **ORM**: Drizzle ORM"]
  else if purpose ≠ "" then ["- " ++ purpose]
  else []

/-- Raw Database & Backend section. -/
def rawDatabaseLines (deps : List RawDep) : List String :=
  if deps = [] then []
  else "## Database & Backend\n" :: deps.flatMap rawDbDepLines ++ [""]

/-- Per-name line contribution of the icons scan (generator.py:141-144). -/
def iconF (n : String) : List String :=
  if n = "lucide-react" then ["- **Icons**: Lucide React"]
  else if n = "@heroicons/react" then ["- **Icons**: Heroicons"]
  else []

/-- Per-name line contribution of the Geist-font scan (generator.py:147-150). -/
def geistF (n : String) : List String :=
  if n = "geist" then ["- **Font**: Geist font family"] else []

/-- Per-name `key_libs` contribution of the Forms scan. -/
def formsF (n : String) : List String :=
  if lastSlashSeg n = "zod" then ["**Validation**: Zod (schema validation)"]
  else if strHasSub n "react-hook-form" then ["**Forms**: React Hook Form"]
  else []

/-- Per-name `key_libs` contribution of the State scan. -/
def stateF (n : String) : List String :=
  if n = "zustand" then ["**State Management**: Zustand"]
  else if n = "jotai" then ["**State Management**: Jotai (atomic)"]
  else if strHasSub n "@reduxjs/toolkit" then ["**State Management**: Redux Toolkit"]
  else []

/-- Per-name `key_libs` contribution of the Data-Fetching scan. -/
def fetchF (n : String) : List String :=
  if strHasSub n "@tanstack/react-query" then ["**Data Fetching**: TanStack Query"]
  else if n = "swr" then ["**Data Fetching**: SWR"]
  else []

/-- Per-name `key_libs` contribution of the Utilities scan. -/
def utilF (n : String) : List String :=
  if n = "date-fns" then ["**Date Utilities**: date-fns"]
  else if n = "dayjs" then ["**Date Utilities**: Day.js"]
  else []

/-- Per-name `key_libs` contribution of the Charts scan. -/
def chartF (n : String) : List String := ["**Charts**: " ++ n]

/-- Per-name `key_libs` contribution of the Notifications scan. -/
def notifF (n : String) : List String :=
  if n = "sonner" then ["**Notifications**: Sonner (toast)"]
  else ["**Notifications**: " ++ n]

/-- Per-name `key_libs` contribution of the Theme scan. -/
def themeF (n : String) : List String :=
  if n = "next-themes" then ["**Theming**: next-themes"] else []

/-- One guarded category scan (`if categorized.get(k): for dep in ...`). -/
def catScan (cc : List (String × List RawDep)) (k : String) (f : String → List String) :
    Except Unit (List String) :=
  if getRCat cc k ≠ [] then depLoop f (getRCat cc k) else Except.ok []

/-- The raw `key_libs` assembly (generator.py:155-205). -/
def rawKeyLibs (cc : List (String × List RawDep)) : Except Unit (List String) := do
  let a ← catScan cc "Forms" formsF
  let b ← catScan cc "State" stateF
  let c ← catScan cc "Data Fetching" fetchF
  let d ← catScan cc "Utilities" utilF
  let e ← catScan cc "Charts" chartF
  let f ← catScan cc "Notifications" notifF
  let g ← catScan cc "Theme" themeF
  Except.ok (a ++ b ++ c ++ d ++ e ++ f ++ g)

/-- Raw `generate_tech_md` (generator.py:76-252) in `Except Unit`. -/
def rawTechMd (r : RawRecord) : Except Unit String := do
  let fw := r.framework.getD "unknown"
  let cc := r.categorizedDependencies.getD []
  let ui := getRCat cc "UI & Styling"
  let uiPart ←
    (if ui = [] then Except.ok (([] : List String), (none : Option Bool))
     else do
       let hasT ← rawAnyTailwind ui
       let rc ← rawCountRadix ui
       let icons ← depLoop iconF ui
       let fonts ← catScan cc "Other" geistF
       Except.ok
         (("## UI & Styling\n" ::
           (if hasT then ["- **CSS Framework**: Tailwind CSS (utility-first)"] else []) ++
           (if 5 < rc ∧ hasT = true then
              ["- **Component Library**: shadcn/ui (built on Radix UI)"]
            else if 0 < rc then ["- **UI Primitives**: Radix UI"]
            else []) ++
           icons ++ fonts ++ [""]),
          some hasT))
  let kl ← rawKeyLibs cc
  Except.ok (joinSep "\n"
    (introLines ++
     frameworkLines fw ++
     rawDatabaseLines (getRCat cc "Database") ++
     uiPart.1 ++
     (if kl = [] then [] else "## Key Libraries\n" :: kl.map (fun l => "- " ++ l) ++ [""]) ++
     scriptsLines r.scripts ++
     envLines r.envVars ++
     constraintsLines fw uiPart.2))

/-- Raw `generate_structure_md`: all its accesses are `dict.get` /
guarded, so it never raises. -/
def rawStructureMd (r : RawRecord) : Except Unit String :=
  Except.ok (joinSep "\n"
    (structureMdLinesCore (r.framework.getD "unknown") r.architecturePatterns))

/-- Raw `generate_product_md`: all its accesses are `dict.get` or
guarded by a truthiness check, so it never raises. -/
def rawProductMd (r : RawRecord) : Except Unit String :=
  Except.ok (joinSep "\n" (productMdLinesCore r.readme r.entities))

/-- Python `enum['name']` / `enum["values"]` accesses (generator.py:455-456). -/
def rawEnumBlock (e : RawEnum) : Except Unit (List String) :=
  match e.name with
  | none => Except.error ()
  | some n =>
    match e.values with
    | none => Except.error ()
    | some vs => Except.ok (("### " ++ n) :: vs.map (fun v => "- `" ++ v ++ "`") ++ [""])

/-- The `for enum in status_enums:` loop (generator.py:454-458). -/
def rawEnumLoop : List RawEnum → Except Unit (List String)
  | [] => Except.ok []
  | e :: rest => do
    let b ← rawEnumBlock e
    let tl ← rawEnumLoop rest
    Except.ok (b ++ tl)

/-- Raw `generate_business_rules_md` (generator.py:444-478). -/
def rawBusinessRulesMd (r : RawRecord) : Except Unit String := do
  let st ←
    (if r.statusEnums = [] then Except.ok []
     else do
       let l ← rawEnumLoop r.statusEnums
       Except.ok ("## Status Values\n" :: l))
  Except.ok (joinSep "\n" ("# Business Rules\n" :: st ++ dataEntityLines r.entities))

/-- Data-model conformance: every dependency descriptor (in every
category) has a name, and every status enum has a name and values. -/
def conformsb (r : RawRecord) : Bool :=
  ((r.categorizedDependencies.getD []).all (fun kv => kv.2.all (fun d => d.name.isSome))) &&
  (r.statusEnums.all (fun e => e.name.isSome && e.values.isSome))

/-! ## Helper lemmas -/

/-- String append is associative. -/
theorem str_append_assoc (a b c : String) : a ++ b ++ c = a ++ (b ++ c) :=
  String.ext (by simp [String.data_append, List.append_assoc])

/-- A string with a fixed non-prefix of `t` prepended never equals `t`. -/
theorem ne_of_not_pre (p t : String) (h : ¬ p.data <+: t.data) (x : String) :
    p ++ x ≠ t := by
  intro he
  exact h ⟨x.data, by rw [← String.data_append, he]⟩

/-- The first joined line is a prefix of the joined document. -/
theorem joinSep_head_prefix (sep a : String) (rest : List String) :
    a.data <+: (joinSep sep (a :: rest)).data := by
  cases rest with
  | nil => simp only [joinSep]; exact List.prefix_refl _
  | cons b tl =>
    simp only [joinSep, String.data_append]
    rw [List.append_assoc]
    exact List.prefix_append _ _

/-- Splitting membership in a conditional list. -/
theorem mem_of_ite {α : Type} {t : α} {c : Prop} [Decidable c] {l1 l2 : List α}
    (h : t ∈ (if c then l1 else l2)) : t ∈ l1 ∨ t ∈ l2 := by
  split at h <;> tauto

/-- Lines that cannot occur in the Development Commands section. -/
theorem not_mem_scriptsLines {t : String} (s : List String)
    (ht : t ∉ ["## Development Commands\n", "```bash",
      "npm run dev       # Start development server",
      "npm run build     # Build for production",
      "npm run start     # Start production server",
      "npm run lint      # Run linter",
      "npm run test      # Run tests", "```\n"]) :
    t ∉ scriptsLines s := by
  intro h
  unfold scriptsLines at h
  simp at ht
  rcases mem_of_ite h with h1 | h1
  · cases h1
  · rcases List.mem_append.mp h1 with h2 | h2
    swap
    · simp_all
    rcases List.mem_append.mp h2 with h3 | h3
    swap
    · rcases mem_of_ite h3 with h4 | h4 <;> simp_all
    rcases List.mem_append.mp h3 with h4 | h4
    swap
    · rcases mem_of_ite h4 with h5 | h5 <;> simp_all
    rcases List.mem_append.mp h4 with h5 | h5
    swap
    · rcases mem_of_ite h5 with h6 | h6 <;> simp_all
    rcases List.mem_append.mp h5 with h6 | h6
    swap
    · rcases mem_of_ite h6 with h7 | h7 <;> simp_all
    rcases List.mem_append.mp h6 with h7 | h7
    · simp_all
    · rcases mem_of_ite h7 with h8 | h8 <;> simp_all

/-- Lines that cannot occur in the Framework & Runtime section. -/
theorem not_mem_frameworkLines {t : String} (fw : String)
    (ht : t ∉ ["## Framework & Runtime\n",
      "- **UI Library**: React 19", "- **Language**: TypeScript 5",
      "- **Runtime**: Node.js 20+", "- **UI Library**: Vue 3 (Composition API)",
      "- **Language**: PHP 8.2+", "- **Runtime**: PHP-FPM / Laravel Octane", ""])
    (hp : ∀ x, t ≠ "- **Framework**: " ++ x) :
    t ∉ frameworkLines fw := by
  intro h
  unfold frameworkLines at h
  simp at ht
  rcases List.mem_append.mp h with h1 | h1
  swap
  · simp_all
  rcases List.mem_append.mp h1 with h2 | h2
  · rcases List.mem_cons.mp h2 with h3 | h3
    · simp_all
    · simp at h3
      exact hp _ h3
  · rcases mem_of_ite h2 with h3 | h3
    · simp_all
    rcases mem_of_ite h3 with h4 | h4
    · simp_all
    rcases mem_of_ite h4 with h5 | h5
    · simp_all
    · cases h5

/-- Lines that cannot occur in the Environment Variables section. -/
theorem not_mem_envLines {t : String} (env : List String)
    (ht : t ∉ ["## Environment Variables\n",
      "Required environment variables (`.env.local`):\n",
      "| Variable | Description |", "|----------|-------------|", ""])
    (hp : ∀ x, t ≠ "| `" ++ x) :
    t ∉ envLines env := by
  intro h
  unfold envLines at h
  simp at ht
  rcases mem_of_ite h with h1 | h1
  · cases h1
  rcases List.mem_append.mp h1 with h2 | h2
  swap
  · simp_all
  rcases List.mem_append.mp h2 with h3 | h3
  · simp_all
  · rcases List.mem_map.mp h3 with ⟨v, _, hv⟩
    simp only [str_append_assoc] at hv
    exact hp _ hv.symm

/-- Lines that cannot occur in the Technical Constraints section. -/
theorem not_mem_constraintsLines {t : String} (fw : String) (o : Option Bool)
    (ht : t ∉ ["## Technical Constraints\n",
      "When generating code, follow these constraints:\n",
      "- Use Server Components by default, Client Components only when needed",
      "- Prefer Server Actions for mutations",
      "- Use `next/image` for images, `next/link` for navigation",
      "- Use Tailwind CSS classes, avoid inline styles",
      "- Follow TypeScript strict mode", ""]) :
    t ∉ constraintsLines fw o := by
  intro h
  unfold constraintsLines at h
  simp at ht
  rcases List.mem_append.mp h with h1 | h1
  swap
  · simp_all
  rcases List.mem_append.mp h1 with h2 | h2
  · rcases List.mem_append.mp h2 with h3 | h3
    · simp_all
    · rcases mem_of_ite h3 with h4 | h4 <;> simp_all
  · rcases mem_of_ite h2 with h3 | h3 <;> simp_all

/-- Lines that cannot occur in the Database & Backend section. -/
theorem not_mem_databaseLines {t : String} (deps : List Dep)
    (ht : t ∉ ["## Database & Backend\n",
      "- **Database**: Supabase (PostgreSQL)", "- **Auth**: Supabase Auth",
      "- **Storage**: Supabase Storage", "- **ORM**: Prisma",
      "- **ORM**: Drizzle ORM", ""])
    (hp : ∀ d ∈ deps, t ≠ "- " ++ d.purpose.getD "") :
    t ∉ databaseLines deps := by
  intro h
  unfold databaseLines at h
  simp at ht
  rcases mem_of_ite h with h1 | h1
  · cases h1
  rcases List.mem_append.mp h1 with h2 | h2
  swap
  · simp_all
  rcases List.mem_cons.mp h2 with h3 | h3
  · simp_all
  rcases List.mem_flatMap.mp h3 with ⟨d, hd, hmem⟩
  unfold dbDepLines at hmem
  split_ifs at hmem <;> simp at hmem
  · rcases hmem with h | h | h <;> simp_all
  · simp_all
  · simp_all
  · exact hp d hd hmem.2

/-- Lines that cannot occur in the UI & Styling section. -/
theorem not_mem_uiStylingLines {t : String} (ui other : List Dep)
    (ht : t ∉ ["## UI & Styling\n", "- **CSS Framework**: Tailwind CSS (utility-first)",
      "- **Component Library**: shadcn/ui (built on Radix UI)",
      "- **UI Primitives**: Radix UI", "- **Icons**: Lucide React",
      "- **Icons**: Heroicons", "- **Font**: Geist font family", ""]) :
    t ∉ uiStylingLines ui other := by
  intro h
  unfold uiStylingLines at h
  simp at ht
  rcases mem_of_ite h with h1 | h1
  · cases h1
  rcases List.mem_append.mp h1 with h2 | h2
  swap
  · simp_all
  rcases List.mem_append.mp h2 with h3 | h3
  swap
  · rcases mem_of_ite h3 with h4 | h4
    · rcases List.mem_filterMap.mp h4 with ⟨d, _, hd⟩
      split_ifs at hd <;> simp_all
    · cases h4
  rcases List.mem_append.mp h3 with h4 | h4
  swap
  · rcases List.mem_filterMap.mp h4 with ⟨d, _, hd⟩
    split_ifs at hd <;> simp_all
  rcases List.mem_append.mp h4 with h5 | h5
  swap
  · rcases mem_of_ite h5 with h6 | h6
    · simp_all
    rcases mem_of_ite h6 with h7 | h7
    · simp_all
    · cases h7
  rcases List.mem_cons.mp h5 with h6 | h6
  · simp_all
  · rcases mem_of_ite h6 with h7 | h7 <;> simp_all

/-- A `key_libs` entry is never the Geist font label. -/
theorem keyLibs_ne_font {cc : List (String × List Dep)} {l : String}
    (h : l ∈ keyLibs cc) : l ≠ "**Font**: Geist font family" := by
  unfold keyLibs at h
  rcases List.mem_append.mp h with h1 | h1
  swap
  · rcases mem_of_ite h1 with h2 | h2
    · rcases List.mem_filterMap.mp h2 with ⟨d, _, hd⟩
      unfold themeLib at hd; split_ifs at hd <;> simp at hd
      subst hd; decide
    · cases h2
  rcases List.mem_append.mp h1 with h2 | h2
  swap
  · rcases mem_of_ite h2 with h3 | h3
    · rcases List.mem_filterMap.mp h3 with ⟨d, _, hd⟩
      unfold notifLib at hd
      split_ifs at hd <;> simp at hd <;> subst hd
      · simp
      · exact ne_of_not_pre "**Notifications**: " _ (by decide) _
    · cases h3
  rcases List.mem_append.mp h2 with h3 | h3
  swap
  · rcases mem_of_ite h3 with h4 | h4
    · rcases List.mem_filterMap.mp h4 with ⟨d, _, hd⟩
      unfold chartLib at hd; simp at hd; subst hd
      exact ne_of_not_pre "**Charts**: " _ (by decide) _
    · cases h4
  rcases List.mem_append.mp h3 with h4 | h4
  swap
  · rcases mem_of_ite h4 with h5 | h5
    · rcases List.mem_filterMap.mp h5 with ⟨d, _, hd⟩
      unfold utilLib at hd; split_ifs at hd <;> simp at hd <;>
        (subst hd; decide)
    · cases h5
  rcases List.mem_append.mp h4 with h5 | h5
  swap
  · rcases mem_of_ite h5 with h6 | h6
    · rcases List.mem_filterMap.mp h6 with ⟨d, _, hd⟩
      unfold fetchLib at hd; split_ifs at hd <;> simp at hd <;>
        (subst hd; decide)
    · cases h6
  rcases List.mem_append.mp h5 with h6 | h6
  · rcases mem_of_ite h6 with h7 | h7
    · rcases List.mem_filterMap.mp h7 with ⟨d, _, hd⟩
      unfold formsLib at hd; split_ifs at hd <;> simp at hd <;>
        (subst hd; decide)
    · cases h7
  · rcases mem_of_ite h6 with h7 | h7
    · rcases List.mem_filterMap.mp h7 with ⟨d, _, hd⟩
      unfold stateLib at hd; split_ifs at hd <;> simp at hd <;>
        (subst hd; decide)
    · cases h7

/-- Lines that cannot occur in the Key Libraries section. -/
theorem not_mem_keyLibsLines {t : String} (cc : List (String × List Dep))
    (ht : t ∉ ["## Key Libraries\n", ""])
    (hp : ∀ l ∈ keyLibs cc, t ≠ "- " ++ l) :
    t ∉ keyLibsLines cc := by
  intro h
  unfold keyLibsLines at h
  simp at ht
  rcases mem_of_ite h with h1 | h1
  · cases h1
  rcases List.mem_append.mp h1 with h2 | h2
  swap
  · simp_all
  rcases List.mem_cons.mp h2 with h3 | h3
  · simp_all
  · rcases List.mem_map.mp h3 with ⟨l, hl, hv⟩
    exact hp l hl hv.symm

/-- Binding a success just applies the continuation. -/
theorem ok_bind {α β : Type} (a : α) (f : α → Except Unit β) :
    (Except.ok a >>= f : Except Unit β) = f a := rfl

/-- A dep loop over fully named dependencies succeeds. -/
theorem depLoop_ok (f : String → List String) (l : List RawDep)
    (h : ∀ d ∈ l, d.name.isSome = true) : ∃ v, depLoop f l = Except.ok v := by
  induction l with
  | nil => exact ⟨[], rfl⟩
  | cons d rest ih =>
    obtain ⟨n, hn⟩ := Option.isSome_iff_exists.mp (h d (List.mem_cons_self d rest))
    obtain ⟨v, hv⟩ := ih (fun x hx => h x (List.mem_cons_of_mem _ hx))
    exact ⟨f n ++ v, by simp [depLoop, rnm, hn, hv, ok_bind]⟩

/-- The lazy tailwind scan over fully named dependencies succeeds. -/
theorem rawAnyTailwind_ok (l : List RawDep)
    (h : ∀ d ∈ l, d.name.isSome = true) : ∃ b, rawAnyTailwind l = Except.ok b := by
  induction l with
  | nil => exact ⟨false, rfl⟩
  | cons d rest ih =>
    obtain ⟨n, hn⟩ := Option.isSome_iff_exists.mp (h d (List.mem_cons_self d rest))
    by_cases hp : strHasSub (strLower n) "tailwind" = true
    · exact ⟨true, by simp [rawAnyTailwind, rnm, hn, hp, ok_bind]⟩
    · obtain ⟨b, hb⟩ := ih (fun x hx => h x (List.mem_cons_of_mem _ hx))
      exact ⟨b, by simp [rawAnyTailwind, rnm, hn, hp, hb, ok_bind]⟩

/-- The radix count over fully named dependencies succeeds. -/
theorem rawCountRadix_ok (l : List RawDep)
    (h : ∀ d ∈ l, d.name.isSome = true) : ∃ n, rawCountRadix l = Except.ok n := by
  induction l with
  | nil => exact ⟨0, rfl⟩
  | cons d rest ih =>
    obtain ⟨n, hn⟩ := Option.isSome_iff_exists.mp (h d (List.mem_cons_self d rest))
    obtain ⟨c, hc⟩ := ih (fun x hx => h x (List.mem_cons_of_mem _ hx))
    exact ⟨c + (if strHasSub n "@radix-ui" then 1 else 0),
      by simp [rawCountRadix, rnm, hn, hc, ok_bind]⟩

/-- A successful lookup returns one of the association-list values. -/
theorem lookupStr_mem {α : Type} {cc : List (String × α)} {k : String} {v : α}
    (h : lookupStr cc k = some v) : ∃ p ∈ cc, p.2 = v := by
  induction cc with
  | nil => cases h
  | cons p rest ih =>
    unfold lookupStr at h
    split_ifs at h with hk
    · exact ⟨p, List.mem_cons_self p rest, by injection h⟩
    · obtain ⟨q, hq, hv⟩ := ih h
      exact ⟨q, List.mem_cons_of_mem _ hq, hv⟩

/-- Under categorized-dependency conformance, every category's
dependencies are named. -/
theorem getRCat_named {cc : List (String × List RawDep)}
    (h : cc.all (fun kv => kv.2.all (fun d => d.name.isSome)) = true) (k : String) :
    ∀ d ∈ getRCat cc k, d.name.isSome = true := by
  intro d hd
  unfold getRCat at hd
  cases hlk : lookupStr cc k with
  | none => rw [hlk] at hd; cases hd
  | some deps =>
    rw [hlk] at hd
    obtain ⟨p, hp, hv⟩ := lookupStr_mem hlk
    have := List.all_eq_true.mp h p hp
    exact List.all_eq_true.mp (hv ▸ this) d hd

/-- A guarded category scan over named dependencies succeeds. -/
theorem catScan_ok (cc : List (String × List RawDep)) (k : String)
    (f : String → List String)
    (h : ∀ d ∈ getRCat cc k, d.name.isSome = true) :
    ∃ v, catScan cc k f = Except.ok v := by
  unfold catScan
  split_ifs
  · exact depLoop_ok f _ h
  · exact ⟨[], rfl⟩

/-- The whole `key_libs` assembly succeeds on named dependencies. -/
theorem rawKeyLibs_ok (cc : List (String × List RawDep))
    (h : cc.all (fun kv => kv.2.all (fun d => d.name.isSome)) = true) :
    ∃ v, rawKeyLibs cc = Except.ok v := by
  obtain ⟨a, ha⟩ := catScan_ok cc "Forms" formsF (getRCat_named h _)
  obtain ⟨b, hb⟩ := catScan_ok cc "State" stateF (getRCat_named h _)
  obtain ⟨c, hc⟩ := catScan_ok cc "Data Fetching" fetchF (getRCat_named h _)
  obtain ⟨d, hd⟩ := catScan_ok cc "Utilities" utilF (getRCat_named h _)
  obtain ⟨e, he⟩ := catScan_ok cc "Charts" chartF (getRCat_named h _)
  obtain ⟨f, hf⟩ := catScan_ok cc "Notifications" notifF (getRCat_named h _)
  obtain ⟨g, hg⟩ := catScan_ok cc "Theme" themeF (getRCat_named h _)
  exact ⟨a ++ b ++ c ++ d ++ e ++ f ++ g,
    by simp only [rawKeyLibs, ha, hb, hc, hd, he, hf, hg, ok_bind]⟩

/-- The raw tech.md deriver succeeds on conforming records. -/
theorem rawTechMd_ok (r : RawRecord) (h : conformsb r = true) :
    ∃ s, rawTechMd r = Except.ok s := by
  have hcc : (r.categorizedDependencies.getD []).all
      (fun kv => kv.2.all (fun d => d.name.isSome)) = true :=
    ((Bool.and_eq_true _ _).mp h).1
  obtain ⟨kl, hkl⟩ := rawKeyLibs_ok _ hcc
  by_cases hui : getRCat (r.categorizedDependencies.getD []) "UI & Styling" = []
  · exact ⟨_, by simp only [rawTechMd, hui, if_pos, hkl, ok_bind, if_true]; rfl⟩
  · obtain ⟨hasT, hT⟩ := rawAnyTailwind_ok _ (getRCat_named hcc "UI & Styling")
    obtain ⟨rc, hrc⟩ := rawCountRadix_ok _ (getRCat_named hcc "UI & Styling")
    obtain ⟨icons, hicons⟩ := depLoop_ok iconF _ (getRCat_named hcc "UI & Styling")
    obtain ⟨fonts, hfonts⟩ := catScan_ok _ "Other" geistF (getRCat_named hcc "Other")
    exact ⟨_, by simp only [rawTechMd, if_neg hui, hT, hrc, hicons, hfonts, hkl, ok_bind]; rfl⟩

/-- One raw enum block succeeds when the enum has name and values. -/
theorem rawEnumBlock_ok (e : RawEnum)
    (h : e.name.isSome = true ∧ e.values.isSome = true) :
    ∃ v, rawEnumBlock e = Except.ok v := by
  obtain ⟨n, hn⟩ := Option.isSome_iff_exists.mp h.1
  obtain ⟨vs, hvs⟩ := Option.isSome_iff_exists.mp h.2
  exact ⟨("### " ++ n) :: vs.map (fun v => "- `" ++ v ++ "`") ++ [""],
    by simp [rawEnumBlock, hn, hvs]⟩

/-- The enum loop succeeds on conforming enums. -/
theorem rawEnumLoop_ok (l : List RawEnum)
    (h : ∀ e ∈ l, e.name.isSome = true ∧ e.values.isSome = true) :
    ∃ v, rawEnumLoop l = Except.ok v := by
  induction l with
  | nil => exact ⟨[], rfl⟩
  | cons e rest ih =>
    obtain ⟨b, hb⟩ := rawEnumBlock_ok e (h e (List.mem_cons_self e rest))
    obtain ⟨tl, htl⟩ := ih (fun x hx => h x (List.mem_cons_of_mem _ hx))
    exact ⟨b ++ tl, by simp [rawEnumLoop, hb, htl, ok_bind]⟩

/-- The raw business-rules deriver succeeds on conforming records. -/
theorem rawBusinessRulesMd_ok (r : RawRecord) (h : conformsb r = true) :
    ∃ s, rawBusinessRulesMd r = Except.ok s := by
  have hen : r.statusEnums.all (fun e => e.name.isSome && e.values.isSome) = true :=
    ((Bool.and_eq_true _ _).mp h).2
  by_cases hse : r.statusEnums = []
  · exact ⟨_, by simp only [rawBusinessRulesMd, hse, if_pos, ok_bind, if_true]; rfl⟩
  · obtain ⟨l, hl⟩ := rawEnumLoop_ok r.statusEnums
      (fun e he => (Bool.and_eq_true _ _).mp (List.all_eq_true.mp hen e he))
    exact ⟨_, by simp only [rawBusinessRulesMd, if_neg hse, hl, ok_bind]; rfl⟩

/-! ## Claim theorems -/

/-- The combined single-file body: the four document bodies in fixed
order, separated by the markdown horizontal-rule separator. -/
def combinedBody (r : AnalysisRecord) : String :=
  generate_tech_md r ++ "\n\n---\n\n" ++
  (generate_structure_md r ++ "\n\n---\n\n" ++
   (generate_product_md r ++ "\n\n---\n\n" ++ generate_business_rules_md r))

/-- C2: `_get_env_var_description` resolves by fixed priority: an exact
table hit wins over every substring rule (in particular
`STRIPE_SECRET_KEY` ↦ "Stripe secret key"), and a name outside the
table containing both SECRET and URL that matches no higher-priority
rule resolves to "Secret key", not "Service URL". -/
theorem claim_C2_env_description_priority (v : String)
    (hTable : lookupStr envDescTable v = none)
    (hSup : strHasSub (strUpper v) "SUPABASE" = false)
    (hDb : strHasSub (strUpper v) "DATABASE" = false)
    (hDb2 : strHasSub (strUpper v) "DB_" = false)
    (hApi : strHasSub (strUpper v) "API_KEY" = false)
    (hApi2 : strHasSub (strUpper v) "APIKEY" = false)
    (hSec : strHasSub (strUpper v) "SECRET" = true)
    (hUrl : strHasSub (strUpper v) "URL" = true) :
    (∀ w d, lookupStr envDescTable w = some d → get_env_var_description w = d) ∧
    get_env_var_description "STRIPE_SECRET_KEY" = "Stripe secret key" ∧
    get_env_var_description v = "Secret key" := by
  refine ⟨?_, by decide, ?_⟩
  · intro w d hw
    unfold get_env_var_description
    rw [hw]
  · unfold get_env_var_description
    rw [hTable]
    simp [hSup, hDb, hDb2, hApi, hApi2, hSec]

/-- Witness for C2 at the concrete name `MY_SECRET_URL`. -/
theorem claim_C2_witness :
    lookupStr envDescTable "MY_SECRET_URL" = none ∧
    strHasSub (strUpper "MY_SECRET_URL") "SECRET" = true ∧
    strHasSub (strUpper "MY_SECRET_URL") "URL" = true ∧
    ((∀ w d, lookupStr envDescTable w = some d → get_env_var_description w = d) ∧
     get_env_var_description "STRIPE_SECRET_KEY" = "Stripe secret key" ∧
     get_env_var_description "MY_SECRET_URL" = "Secret key") :=
  ⟨by decide, by decide, by decide,
   claim_C2_env_description_priority "MY_SECRET_URL" (by decide) (by decide)
     (by decide) (by decide) (by decide) (by decide) (by decide) (by decide)⟩

/-- C3: the kiro target yields exactly 4 entries, one per document key
at `{targetDir}{documentKey}`, each wrapped with the always-load
front-matter; every single-file target yields exactly 1 entry holding
the four bodies joined in fixed order by the horizontal-rule separator,
wrapped with the description/alwaysApply front-matter for cursor only. -/
theorem claim_C3_adapter_output_shape (r : AnalysisRecord) :
    generate_steering_docs_deep r "kiro" =
      [(".kiro/steering/tech.md", "---\ninclusion: always\n---\n" ++ generate_tech_md r),
       (".kiro/steering/structure.md", "---\ninclusion: always\n---\n" ++ generate_structure_md r),
       (".kiro/steering/product.md", "---\ninclusion: always\n---\n" ++ generate_product_md r),
       (".kiro/steering/business-rules.md", "---\ninclusion: always\n---\n" ++ generate_business_rules_md r)] ∧
    generate_steering_docs_deep r "cursor" =
      [(".cursor/rules/project.mdc",
        "---\ndescription: " ++
          ("Steering rules for " ++ (lookupStr FRAMEWORK_NAMES (r.framework.getD "unknown")).getD (r.framework.getD "unknown") ++ " project") ++
          "\nalwaysApply: true\n---\n" ++ combinedBody r)] ∧
    generate_steering_docs_deep r "copilot" = [(".github/copilot-instructions.md", combinedBody r)] ∧
    generate_steering_docs_deep r "windsurf" = [(".windsurfrules", combinedBody r)] ∧
    generate_steering_docs_deep r "cline" = [(".clinerules", combinedBody r)] ∧
    generate_steering_docs_deep r "aider" = [("CONVENTIONS.md", combinedBody r)] ∧
    generate_steering_docs_deep r "markdown" = [("STEERING.md", combinedBody r)] := by
  refine ⟨?_, ?_, ?_, ?_, ?_, ?_, ?_⟩ <;> rfl

/-- C4: an unknown target identifier falls back to the generic
single-file markdown bundle instead of failing. -/
theorem claim_C4_unknown_target_fallback (r : AnalysisRecord) (fmt : String)
    (h : fmt ∉ ["kiro", "cursor", "copilot", "windsurf", "cline", "aider", "markdown"]) :
    generate_steering_docs_deep r fmt = [("STEERING.md", combinedBody r)] ∧
    generate_steering_docs_deep r fmt = generate_steering_docs_deep r "markdown" := by
  simp only [List.mem_cons, List.mem_singleton, not_or] at h
  obtain ⟨h1, h2, h3, h4, h5, h6, h7⟩ := h
  have hlk : lookupStr IDE_CONFIGS fmt = none := by
    simp [lookupStr, IDE_CONFIGS, h1, h2, h3, h4, h5, h6, h7]
  have e1 : generate_steering_docs_deep r fmt = [("STEERING.md", combinedBody r)] := by
    unfold generate_steering_docs_deep
    simp only [hlk, Option.getD_none, if_neg h1, if_neg h2]
    rfl
  exact ⟨e1, e1.trans (by rfl)⟩

/-- A fully defaulted analysis record. -/
def rEx4 : AnalysisRecord := {}

/-- Witness for C4 at the unknown identifier `vscode`. -/
theorem claim_C4_witness :
    "vscode" ∉ ["kiro", "cursor", "copilot", "windsurf", "cline", "aider", "markdown"] ∧
    (generate_steering_docs_deep rEx4 "vscode" = [("STEERING.md", combinedBody rEx4)] ∧
     generate_steering_docs_deep rEx4 "vscode" = generate_steering_docs_deep rEx4 "markdown") :=
  ⟨by decide, claim_C4_unknown_target_fallback rEx4 "vscode" (by decide)⟩

/-- C5: on records conforming to the data model (every dependency
descriptor named, every status enum with name and values), all four
content derivers return a string without raising. -/
theorem claim_C5_derivers_never_raise (r : RawRecord) (h : conformsb r = true) :
    (rawTechMd r).isOk = true ∧ (rawStructureMd r).isOk = true ∧
    (rawProductMd r).isOk = true ∧ (rawBusinessRulesMd r).isOk = true := by
  obtain ⟨s1, h1⟩ := rawTechMd_ok r h
  obtain ⟨s4, h4⟩ := rawBusinessRulesMd_ok r h
  exact ⟨by rw [h1]; rfl, rfl, rfl, by rw [h4]; rfl⟩

/-- A conforming raw record exercising dependencies and enums. -/
def rawEx5 : RawRecord :=
  { categorizedDependencies := some
      [("UI & Styling", [{ name := some "tailwindcss" }]),
       ("Charts", [{ name := some "recharts" }])],
    statusEnums := [{ name := some "OrderStatus", values := some ["pending", "paid"] }],
    scripts := ["dev"] }

/-- Witness for C5 at a concrete conforming record. -/
theorem claim_C5_witness :
    conformsb rawEx5 = true ∧
    ((rawTechMd rawEx5).isOk = true ∧ (rawStructureMd rawEx5).isOk = true ∧
     (rawProductMd rawEx5).isOk = true ∧ (rawBusinessRulesMd rawEx5).isOk = true) :=
  ⟨by decide, claim_C5_derivers_never_raise rawEx5 (by decide)⟩

/-- C7: with a non-empty statusEnums sequence, the business-rules
document renders exactly one subsection per enum, in input order, each
the enum name heading followed by one bullet per value in order. -/
theorem claim_C7_status_enum_subsections (r : AnalysisRecord) (h : r.statusEnums ≠ []) :
    bizMdLines r =
      "# Business Rules\n" :: "## Status Values\n" ::
        (r.statusEnums.flatMap (fun e =>
          ("### " ++ e.name) :: e.values.map (fun v => "- `" ++ v ++ "`") ++ [""])) ++
        dataEntityLines r.entities := by
  unfold bizMdLines statusValuesLines
  rw [if_neg h]
  simp only [List.cons_append]
  have he : (fun e : StatusEnum =>
      ("### " ++ e.name) :: (List.map (fun v => "- `" ++ v ++ "`") e.values ++ [""])) =
      enumBlock := by
    funext e
    simp [enumBlock]
  rw [he]

/-- A record with one status enum. -/
def rEx7 : AnalysisRecord :=
  { statusEnums := [{ name := "OrderStatus", values := ["pending", "paid"] }] }

/-- Witness for C7 at a concrete record. -/
theorem claim_C7_witness :
    rEx7.statusEnums ≠ [] ∧
    bizMdLines rEx7 =
      "# Business Rules\n" :: "## Status Values\n" ::
        (rEx7.statusEnums.flatMap (fun e =>
          ("### " ++ e.name) :: e.values.map (fun v => "- `" ++ v ++ "`") ++ [""])) ++
        dataEntityLines rEx7.entities :=
  ⟨by decide, claim_C7_status_enum_subsections rEx7 (by decide)⟩

/-- The icon scan emits only the two icon lines. -/
theorem not_mem_iconScan {t : String} (ui : List Dep)
    (h1 : t ≠ "- **Icons**: Lucide React") (h2 : t ≠ "- **Icons**: Heroicons") :
    t ∉ ui.filterMap (fun d =>
      if d.name = "lucide-react" then some "- **Icons**: Lucide React"
      else if d.name = "@heroicons/react" then some "- **Icons**: Heroicons"
      else none) := by
  intro h
  rcases List.mem_filterMap.mp h with ⟨d, _, hd⟩
  split_ifs at hd <;> simp at hd <;> simp_all

/-- The font scan emits only the Geist font line. -/
theorem not_mem_fontScan {t : String} (other : List Dep)
    (h1 : t ≠ "- **Font**: Geist font family") :
    t ∉ other.filterMap (fun d =>
      if d.name = "geist" then some "- **Font**: Geist font family" else none) := by
  intro h
  rcases List.mem_filterMap.mp h with ⟨d, _, hd⟩
  split_ifs at hd <;> simp at hd <;> simp_all

/-- C1: in the UI & Styling section, a tailwind dependency together with
strictly more than 5 `@radix-ui` entries emits the shadcn/ui component
library line and suppresses the plain Radix primitives line; a positive
radix count without that conjunction emits the plain line instead. -/
theorem claim_C1_radix_tailwind_tiebreak (ui other : List Dep) (hne : ui ≠ []) :
    (hasTailwind ui = true ∧ 5 < radixCount ui →
       "- **Component Library**: shadcn/ui (built on Radix UI)" ∈ uiStylingLines ui other ∧
       "- **UI Primitives**: Radix UI" ∉ uiStylingLines ui other) ∧
    (0 < radixCount ui ∧ ¬(hasTailwind ui = true ∧ 5 < radixCount ui) →
       "- **UI Primitives**: Radix UI" ∈ uiStylingLines ui other ∧
       "- **Component Library**: shadcn/ui (built on Radix UI)" ∉ uiStylingLines ui other) := by
  constructor
  · rintro ⟨hT, hR⟩
    constructor
    · simp [uiStylingLines, hne, hT, hR]
    · intro hmem
      unfold uiStylingLines at hmem
      rw [if_neg hne,
        if_pos (show 5 < radixCount ui ∧ hasTailwind ui = true from ⟨hR, hT⟩)] at hmem
      rcases List.mem_append.mp hmem with h1 | h1
      swap
      · simp at h1
      rcases List.mem_append.mp h1 with h2 | h2
      swap
      · rcases mem_of_ite h2 with h3 | h3
        · exact not_mem_fontScan other (by decide) h3
        · cases h3
      rcases List.mem_append.mp h2 with h3 | h3
      swap
      · exact not_mem_iconScan ui (by decide) (by decide) h3
      rcases List.mem_append.mp h3 with h4 | h4
      swap
      · simp at h4
      rcases List.mem_cons.mp h4 with h5 | h5
      · simp at h5
      · rcases mem_of_ite h5 with h6 | h6 <;> simp at h6
  · rintro ⟨hR0, hnc⟩
    have hnc' : ¬(5 < radixCount ui ∧ hasTailwind ui = true) :=
      fun hc => hnc ⟨hc.2, hc.1⟩
    constructor
    · simp only [uiStylingLines, if_neg hne, if_neg hnc', if_pos hR0]
      simp
    · intro hmem
      unfold uiStylingLines at hmem
      rw [if_neg hne, if_neg hnc', if_pos hR0] at hmem
      rcases List.mem_append.mp hmem with h1 | h1
      swap
      · simp at h1
      rcases List.mem_append.mp h1 with h2 | h2
      swap
      · rcases mem_of_ite h2 with h3 | h3
        · exact not_mem_fontScan other (by decide) h3
        · cases h3
      rcases List.mem_append.mp h2 with h3 | h3
      swap
      · exact not_mem_iconScan ui (by decide) (by decide) h3
      rcases List.mem_append.mp h3 with h4 | h4
      swap
      · simp at h4
      rcases List.mem_cons.mp h4 with h5 | h5
      · simp at h5
      · rcases mem_of_ite h5 with h6 | h6 <;> simp at h6

/-- A UI category with a tailwind dependency and six radix entries. -/
def uiEx1 : List Dep :=
  [{ name := "tailwindcss" }, { name := "@radix-ui/react-dialog" },
   { name := "@radix-ui/react-popover" }, { name := "@radix-ui/react-menu" },
   { name := "@radix-ui/react-tabs" }, { name := "@radix-ui/react-label" },
   { name := "@radix-ui/react-slot" }]

/-- Witness for C1 at a concrete UI category. -/
theorem claim_C1_witness :
    uiEx1 ≠ [] ∧ hasTailwind uiEx1 = true ∧ radixCount uiEx1 = 6 ∧
    ((hasTailwind uiEx1 = true ∧ 5 < radixCount uiEx1 →
       "- **Component Library**: shadcn/ui (built on Radix UI)" ∈ uiStylingLines uiEx1 [] ∧
       "- **UI Primitives**: Radix UI" ∉ uiStylingLines uiEx1 []) ∧
     (0 < radixCount uiEx1 ∧ ¬(hasTailwind uiEx1 = true ∧ 5 < radixCount uiEx1) →
       "- **UI Primitives**: Radix UI" ∈ uiStylingLines uiEx1 [] ∧
       "- **Component Library**: shadcn/ui (built on Radix UI)" ∉ uiStylingLines uiEx1 [])) :=
  ⟨by decide, by decide, by decide,
   claim_C1_radix_tailwind_tiebreak uiEx1 [] (by decide)⟩

/-- The head line of the line list is a prefix of the joined document. -/
theorem joinSep_prefix_of_head (sep : String) (l : List String) (a : String)
    (h : l.head? = some a) : a.data <+: (joinSep sep l).data := by
  cases l with
  | nil => cases h
  | cons x tl =>
    injection h with h
    subst h
    exact joinSep_head_prefix sep x tl

/-- C6: with `categorizedDependencies` absent or empty, the technology
document still begins with the Technology Stack heading and carries a
framework line, and none of the Database/UI/Key-Libraries section
headings occur. -/
theorem claim_C6_empty_categorized (r : AnalysisRecord)
    (h : r.categorizedDependencies = none ∨ r.categorizedDependencies = some []) :
    ("# Technology Stack\n").data <+: (generate_tech_md r).data ∧
    ("- **Framework**: " ++
      (lookupStr FRAMEWORK_NAMES (r.framework.getD "unknown")).getD (r.framework.getD "unknown"))
      ∈ techMdLines r ∧
    "## Database & Backend\n" ∉ techMdLines r ∧
    "## UI & Styling\n" ∉ techMdLines r ∧
    "## Key Libraries\n" ∉ techMdLines r := by
  have hcc : r.categorizedDependencies.getD [] = [] := by
    rcases h with h | h <;> simp [h]
  have h1 : techMdLines r =
      introLines ++ frameworkLines (r.framework.getD "unknown") ++
      scriptsLines r.scripts ++ envLines r.envVars ++
      constraintsLines (r.framework.getD "unknown") none := by
    simp [techMdLines, hcc, getCat, lookupStr, databaseLines, uiStylingLines,
      keyLibsLines, keyLibs]
  refine ⟨?_, ?_, ?_, ?_, ?_⟩
  · exact joinSep_prefix_of_head "\n" (techMdLines r) _ rfl
  · simp [h1, frameworkLines, introLines]
  · rw [h1]
    intro hmem
    rcases List.mem_append.mp hmem with hm | hm
    swap
    · exact not_mem_constraintsLines _ _ (by decide) hm
    rcases List.mem_append.mp hm with hm2 | hm2
    swap
    · exact not_mem_envLines _ (by decide)
        (fun x hx => ne_of_not_pre "| `" _ (by decide) x hx.symm) hm2
    rcases List.mem_append.mp hm2 with hm3 | hm3
    swap
    · exact not_mem_scriptsLines _ (by decide) hm3
    rcases List.mem_append.mp hm3 with hm4 | hm4
    · simp [introLines] at hm4
    · exact not_mem_frameworkLines _ (by decide)
        (fun x hx => ne_of_not_pre "- **Framework**: " _ (by decide) x hx.symm) hm4
  · rw [h1]
    intro hmem
    rcases List.mem_append.mp hmem with hm | hm
    swap
    · exact not_mem_constraintsLines _ _ (by decide) hm
    rcases List.mem_append.mp hm with hm2 | hm2
    swap
    · exact not_mem_envLines _ (by decide)
        (fun x hx => ne_of_not_pre "| `" _ (by decide) x hx.symm) hm2
    rcases List.mem_append.mp hm2 with hm3 | hm3
    swap
    · exact not_mem_scriptsLines _ (by decide) hm3
    rcases List.mem_append.mp hm3 with hm4 | hm4
    · simp [introLines] at hm4
    · exact not_mem_frameworkLines _ (by decide)
        (fun x hx => ne_of_not_pre "- **Framework**: " _ (by decide) x hx.symm) hm4
  · rw [h1]
    intro hmem
    rcases List.mem_append.mp hmem with hm | hm
    swap
    · exact not_mem_constraintsLines _ _ (by decide) hm
    rcases List.mem_append.mp hm with hm2 | hm2
    swap
    · exact not_mem_envLines _ (by decide)
        (fun x hx => ne_of_not_pre "| `" _ (by decide) x hx.symm) hm2
    rcases List.mem_append.mp hm2 with hm3 | hm3
    swap
    · exact not_mem_scriptsLines _ (by decide) hm3
    rcases List.mem_append.mp hm3 with hm4 | hm4
    · simp [introLines] at hm4
    · exact not_mem_frameworkLines _ (by decide)
        (fun x hx => ne_of_not_pre "- **Framework**: " _ (by decide) x hx.symm) hm4

/-- A record with framework, scripts and env vars but no categorized
dependencies. -/
def rEx6 : AnalysisRecord :=
  { framework := some "nextjs", scripts := ["dev", "build"], envVars := ["MY_APP_URL"] }

/-- Witness for C6 at a concrete record. -/
theorem claim_C6_witness :
    (rEx6.categorizedDependencies = none ∨ rEx6.categorizedDependencies = some []) ∧
    (("# Technology Stack\n").data <+: (generate_tech_md rEx6).data ∧
     ("- **Framework**: " ++
       (lookupStr FRAMEWORK_NAMES (rEx6.framework.getD "unknown")).getD (rEx6.framework.getD "unknown"))
       ∈ techMdLines rEx6 ∧
     "## Database & Backend\n" ∉ techMdLines rEx6 ∧
     "## UI & Styling\n" ∉ techMdLines rEx6 ∧
     "## Key Libraries\n" ∉ techMdLines rEx6) :=
  ⟨Or.inl rfl, claim_C6_empty_categorized rEx6 (Or.inl rfl)⟩

/-- An entity list whose only entry has no fields. -/
def rEx8 : AnalysisRecord := { entities := [{ name := "Order" }] }

/-- C8 counterexample: the entity `Order` is among the first 5 entities,
yet the business-rules document renders no subsection for it, because
the generator skips entities without a truthy field list. -/
theorem claim_C8_counterexample :
    rEx8.entities = [{ name := "Order", description := none, fields := none }] ∧
    "### Order\n" ∉ bizMdLines rEx8 ∧
    bizMdLines rEx8 = ["# Business Rules\n", "## Data Entities\n"] := by
  refine ⟨rfl, ?_, rfl⟩
  decide

/-- C8 (amended): with a non-empty entity sequence, the Data Entities
section renders one subsection per entity among the first 5 entities
that have a non-empty name and a non-empty field list, each a table of
at most the first 10 fields with the type truncated to its first line
and 30 characters and Required = "No" exactly for optional fields;
entities among the first 5 lacking a name or fields are skipped. -/
theorem claim_C8_entity_tables (r : AnalysisRecord) (h : r.entities ≠ []) :
    bizMdLines r =
      "# Business Rules\n" :: statusValuesLines r.statusEnums ++
        "## Data Entities\n" :: (r.entities.take 5).flatMap (fun e =>
          if e.name ≠ "" ∧ e.fields.getD [] ≠ [] then
            ("### " ++ e.name ++ "\n") ::
            "| Field | Type | Required |" ::
            "|-------|------|----------|" ::
            ((e.fields.getD []).take 10).map (fun f =>
              "| " ++ f.name ++ " | `" ++ truncTy f.type ++ "` | " ++
              (if f.optional then "No" else "Yes") ++ " |") ++ [""]
          else []) := by
  unfold bizMdLines dataEntityLines
  rw [if_neg h]
  simp only [List.cons_append]
  have he : (fun e : Entity =>
      if e.name ≠ "" ∧ e.fields.getD [] ≠ [] then
        ("### " ++ e.name ++ "\n") ::
        ("| Field | Type | Required |" ::
         ("|-------|------|----------|" ::
          (((e.fields.getD []).take 10).map (fun f =>
            "| " ++ f.name ++ " | `" ++ truncTy f.type ++ "` | " ++
            (if f.optional then "No" else "Yes") ++ " |") ++ [""])))
      else []) = entityBlock := by
    funext e
    have hf : (fun f : EntityField =>
        "| " ++ f.name ++ " | `" ++ truncTy f.type ++ "` | " ++
        (if f.optional then "No" else "Yes") ++ " |") = fieldRow := by
      funext f
      rfl
    rw [hf]
    rfl
  rw [← he]

/-- A record with one fully populated entity. -/
def rEx8b : AnalysisRecord :=
  { entities := [{ name := "User",
                   fields := some [{ name := "id", type := "string" },
                                   { name := "note", type := "text\nlong", optional := true }] }] }

/-- Witness for the amended C8 at a concrete record. -/
theorem claim_C8_witness :
    rEx8b.entities ≠ [] ∧
    bizMdLines rEx8b =
      "# Business Rules\n" :: statusValuesLines rEx8b.statusEnums ++
        "## Data Entities\n" :: (rEx8b.entities.take 5).flatMap (fun e =>
          if e.name ≠ "" ∧ e.fields.getD [] ≠ [] then
            ("### " ++ e.name ++ "\n") ::
            "| Field | Type | Required |" ::
            "|-------|------|----------|" ::
            ((e.fields.getD []).take 10).map (fun f =>
              "| " ++ f.name ++ " | `" ++ truncTy f.type ++ "` | " ++
              (if f.optional then "No" else "Yes") ++ " |") ++ [""]
          else []) :=
  ⟨by decide, claim_C8_entity_tables rEx8b (by decide)⟩

/-- A readme whose title is present but empty. -/
def rEx9 : AnalysisRecord := { readme := { title := some "" } }

/-- C9 counterexample: with a present but empty title (which contains no
"deploy"), the product document does not emit the title line, because
the generator tests the title for truthiness, not mere presence. -/
theorem claim_C9_counterexample :
    rEx9.readme.title = some "" ∧
    strHasSub (strLower "") "deploy" = false ∧
    ("" ++ "\n") ∉ productMdLines rEx9 ∧
    productMdLines rEx9 = ["# Product Overview\n"] := by
  refine ⟨rfl, rfl, ?_, rfl⟩
  decide

/-- Strips the readme title from a record. -/
def clearTitle (r : AnalysisRecord) : AnalysisRecord :=
  { r with readme := { r.readme with title := none } }

/-- C9 (amended): with a present, non-empty readme title, the title line
is emitted exactly when the lowercased title does not contain "deploy",
and the rest of the product document is the same as with no title. -/
theorem claim_C9_title_suppression (r : AnalysisRecord) (t : String)
    (h1 : r.readme.title = some t) (h2 : t ≠ "") :
    productMdLines r =
      "# Product Overview\n" ::
        (if strHasSub (strLower t) "deploy" then [] else [t ++ "\n"]) ++
        (productMdLines (clearTitle r)).tail := by
  simp only [productMdLines, productMdLinesCore, clearTitle, h1, if_neg h2]
  simp [List.cons_append]

/-- A record with an ordinary readme title. -/
def rEx9b : AnalysisRecord :=
  { readme := { title := some "My App", description := some "Things." },
    entities := [{ name := "User" }] }

/-- Witness for the amended C9 at a concrete record. -/
theorem claim_C9_witness :
    rEx9b.readme.title = some "My App" ∧ "My App" ≠ "" ∧
    productMdLines rEx9b =
      "# Product Overview\n" ::
        (if strHasSub (strLower "My App") "deploy" then [] else ["My App" ++ "\n"]) ++
        (productMdLines (clearTitle rEx9b)).tail :=
  ⟨rfl, by decide, claim_C9_title_suppression rEx9b "My App" rfl (by decide)⟩

/-- Cancelling a common prefix of a string equation. -/
theorem str_append_left_cancel {p a b : String} (h : p ++ a = p ++ b) : a = b := by
  have hd : p.data ++ a.data = p.data ++ b.data := by
    rw [← String.data_append, ← String.data_append, h]
  exact String.ext (List.append_cancel_left hd)

/-- A record whose Other category has `geist`, whose UI & Styling
category is empty, and whose Database purpose text happens to be the
font line's text. -/
def rEx10 : AnalysisRecord :=
  { categorizedDependencies := some
      [("UI & Styling", []),
       ("Other", [{ name := "geist" }]),
       ("Database", [{ name := "x", purpose := some "**Font**: Geist font family" }])] }

/-- C10 counterexample: with an empty UI & Styling category and `geist`
in Other, the claimed absence of the Font line fails, because a
Database dependency's free-text purpose can reproduce the very same
line. -/
theorem claim_C10_counterexample :
    getCat (rEx10.categorizedDependencies.getD []) "UI & Styling" = [] ∧
    ({ name := "geist", purpose := none } : Dep)
      ∈ getCat (rEx10.categorizedDependencies.getD []) "Other" ∧
    "- **Font**: Geist font family" ∈ techMdLines rEx10 := by
  refine ⟨rfl, ?_, ?_⟩ <;> decide

/-- C10 (amended): with an empty (or absent) UI & Styling category, the
Font line does not occur in the technology document — in particular the
nested Other-category Geist scan never runs — unless some Database
dependency's purpose text is itself the Font line's text. -/
theorem claim_C10_font_requires_ui_section (r : AnalysisRecord)
    (hui : getCat (r.categorizedDependencies.getD []) "UI & Styling" = [])
    (hgeist : ∃ d ∈ getCat (r.categorizedDependencies.getD []) "Other", d.name = "geist")
    (hdb : ∀ d ∈ getCat (r.categorizedDependencies.getD []) "Database",
      d.purpose.getD "" ≠ "**Font**: Geist font family") :
    "- **Font**: Geist font family" ∉ techMdLines r := by
  have h1 : techMdLines r =
      introLines ++ frameworkLines (r.framework.getD "unknown") ++
      databaseLines (getCat (r.categorizedDependencies.getD []) "Database") ++
      keyLibsLines (r.categorizedDependencies.getD []) ++
      scriptsLines r.scripts ++ envLines r.envVars ++
      constraintsLines (r.framework.getD "unknown") none := by
    simp [techMdLines, hui, uiStylingLines]
  rw [h1]
  intro hmem
  rcases List.mem_append.mp hmem with hm | hm
  swap
  · exact not_mem_constraintsLines _ _ (by decide) hm
  rcases List.mem_append.mp hm with hm2 | hm2
  swap
  · exact not_mem_envLines _ (by decide)
      (fun x hx => ne_of_not_pre "| `" _ (by decide) x hx.symm) hm2
  rcases List.mem_append.mp hm2 with hm3 | hm3
  swap
  · exact not_mem_scriptsLines _ (by decide) hm3
  rcases List.mem_append.mp hm3 with hm4 | hm4
  swap
  · refine not_mem_keyLibsLines _ (by decide) (fun l hl hx => ?_) hm4
    have : "- " ++ "**Font**: Geist font family" = "- " ++ l := by
      rw [← hx]; decide
    exact keyLibs_ne_font hl (str_append_left_cancel this).symm
  rcases List.mem_append.mp hm4 with hm5 | hm5
  swap
  · refine not_mem_databaseLines _ (by decide) (fun d hd hx => ?_) hm5
    have : "- " ++ "**Font**: Geist font family" = "- " ++ d.purpose.getD "" := by
      rw [← hx]; decide
    exact hdb d hd (str_append_left_cancel this).symm
  rcases List.mem_append.mp hm5 with hm6 | hm6
  · simp [introLines] at hm6
  · exact not_mem_frameworkLines _ (by decide)
      (fun x hx => ne_of_not_pre "- **Framework**: " _ (by decide) x hx.symm) hm6

/-- A record with `geist` in Other, empty UI & Styling and an innocuous
Database purpose. -/
def rEx10b : AnalysisRecord :=
  { categorizedDependencies := some
      [("Other", [{ name := "geist" }]),
       ("Database", [{ name := "pg", purpose := some "Postgres driver" }])] }

/-- Witness for the amended C10 at a concrete record. -/
theorem claim_C10_witness :
    getCat (rEx10b.categorizedDependencies.getD []) "UI & Styling" = [] ∧
    (∃ d ∈ getCat (rEx10b.categorizedDependencies.getD []) "Other", d.name = "geist") ∧
    (∀ d ∈ getCat (rEx10b.categorizedDependencies.getD []) "Database",
      d.purpose.getD "" ≠ "**Font**: Geist font family") ∧
    "- **Font**: Geist font family" ∉ techMdLines rEx10b :=
  ⟨by decide, by decide, by decide,
   claim_C10_font_requires_ui_section rEx10b (by decide) (by decide) (by decide)⟩
